import Mathlib

/-!
Verification of the transaction-test harness (`TransactionTest.Run` and
`ttTransaction.verify`) of the go-DEWH `tests` package, against its
natural-language specification.

The harness itself (decision policy, field validation) is embedded directly
from the source. Its external collaborators — the RLP transaction decoder
(`rlp.DecodeBytes`), the sender-derivation function (`types.Sender`) — are
not part of the provided sources; they are passed in as oracle functions
(the `Extern` structure), so every theorem quantifies over their possible
outcomes. `types.MakeSigner` is likewise absent from the sources and is
modelled from the spec.

Machine integers: Go `uint64` fields are modelled as `Nat` (no arithmetic is
performed on them, only equality tests, so no wraparound is observable);
`*big.Int` fields are modelled as `Int`, with `big.Int.Cmp x y == 0`
becoming `x = y`. Byte strings are `List Nat`. A Go nil slice as a JSON
field is `Option.none`.
-/

/-- A byte string, as Go `[]byte` / `hexutil.Bytes`. -/
abbrev ByteStr := List Nat

/-- Go `common.Address` is `[20]byte`; modelled as a byte list (the
operations of the harness only ever test addresses for equality, and every
address produced by `bytesToAddress` has length 20). -/
abbrev Address := List Nat

/-- The all-zero address, Go `common.Address\x7b\x7d`. -/
def zeroAddress : Address := List.replicate 20 0

/-- Go `common.BytesToAddress`: keep the last 20 bytes of the input and
left-pad with zero bytes to exactly 20 bytes (`Address.SetBytes`). -/
def bytesToAddress (b : ByteStr) : Address :=
  let c := if 20 < b.length then b.drop (b.length - 20) else b
  List.replicate (20 - c.length) 0 ++ c

/-- The decoded transaction, as seen through the accessors the harness
calls on `types.Transaction`: `Data()`, `Gas()`, `GasPrice()`, `Nonce()`,
`RawSignatureValues()`, `To()` (nil pointer = `none`, contract creation),
`Value()`. -/
structure Transaction where
  data : ByteStr
  gas : Nat
  gasPrice : Int
  nonce : Nat
  r : Int
  s : Int
  v : Int
  To : Option Address
  value : Int
  deriving DecidableEq, Repr

/-- The expected-transaction object of a fixture (source type
`ttTransaction`). `To` is a plain 20-byte value: the fixture format has no
way to omit it, the all-zero value is its sentinel for contract creation. -/
structure ttTransaction where
  Data : ByteStr
  GasLimit : Nat
  GasPrice : Int
  Nonce : Nat
  Value : Int
  R : Int
  S : Int
  V : Int
  To : Address
  deriving DecidableEq, Repr

/-- The fixture record (source type `ttJSON`). `Sender` and `Transaction`
are optional: `none` models the Go nil slice / nil pointer left by an
absent JSON field. -/
structure ttJSON where
  BlockNumber : Nat
  RLP : ByteStr
  Sender : Option ByteStr
  Transaction : Option ttTransaction
  deriving DecidableEq, Repr

/-- Source type `TransactionTest`, a wrapper around the fixture record. -/
structure TransactionTest where
  json : ttJSON
  deriving DecidableEq, Repr

/-- Chain configuration, reduced to what signer selection reads: the
replay-protection fork activation height (absent = fork never active) and
the chain id. -/
structure ChainConfig where
  replayProtectionBlock : Option Nat
  chainId : Int
  deriving DecidableEq, Repr

/-- The signer variants of the spec: the legacy scheme and the
replay-protected scheme carrying a chain id. -/
inductive Signer where
  | base : Signer
  | replayProtected : Int → Signer
  deriving DecidableEq, Repr

/-- Modelled from the spec: `types.MakeSigner` is not among the provided
sources. Per the spec it is a pure function of chain config and block
height only: the `base` variant below the replay-protection fork height,
`replayProtected chainId` once the height reaches it. -/
def MakeSigner (config : ChainConfig) (blockNumber : Nat) : Signer :=
  match config.replayProtectionBlock with
  | none => Signer.base
  | some fork =>
      if blockNumber < fork then Signer.base else Signer.replayProtected config.chainId

/-- Field-validation errors, one constructor per `return fmt.Errorf` site
of `ttTransaction.verify`, each carrying exactly the got/want data that the
source interpolates into the message. `toMismatchContractCreation` is the
dedicated no-recipient check (it carries only the fixture value);
`toMismatch` is the byte-for-byte address comparison. -/
inductive VerifyError where
  | dataMismatch : ByteStr → ByteStr → VerifyError
  | gasLimitMismatch : Nat → Nat → VerifyError
  | gasPriceMismatch : Int → Int → VerifyError
  | nonceMismatch : Nat → Nat → VerifyError
  | rMismatch : Int → Int → VerifyError
  | sMismatch : Int → Int → VerifyError
  | vMismatch : Int → Int → VerifyError
  | toMismatchContractCreation : Address → VerifyError
  | toMismatch : Address → Address → VerifyError
  | valueMismatch : Int → Int → VerifyError
  deriving DecidableEq, Repr

/-- Errors of a verification run, one constructor per `return` site of
`TransactionTest.Run` that yields a non-nil error. Decode and
sender-derivation errors come from the external collaborators and are
carried opaquely (as the message string the collaborator produced). -/
inductive RunError where
  | decodeFailed : String → RunError
  | senderDerivation : String → RunError
  | senderMismatch : Address → ByteStr → RunError
  | unexpectedValidationSuccess : RunError
  | fieldValidation : VerifyError → RunError
  deriving DecidableEq, Repr

/-- Outcome of a run: success (`nil` error), a returned error, or a
runtime panic (nil-pointer dereference), which in Go is not a return value
at all. -/
inductive RunResult where
  | ok : RunResult
  | err : RunError → RunResult
  | panics : RunResult
  deriving DecidableEq, Repr

/-- The external collaborators of the harness, not part of the provided
sources: `rlp.DecodeBytes` specialised to `types.Transaction`, and
`types.Sender` (signature recovery). Each may fail with an error, carried
as a string. -/
structure Extern where
  decodeTx : ByteStr → Except String Transaction
  senderOf : Signer → Transaction → Except String Address

/-- Source `ttTransaction.verify`: sequential field-by-field comparison of
the decoded transaction against the fixture's expected transaction, in
source order (data, gasLimit, gasPrice, nonce, r, s, v, to, value),
returning the first mismatch. The `signer` argument is accepted and unused,
as in the source. -/
def ttTransaction.verify (tt : ttTransaction) (signer : Signer) (tx : Transaction) :
    Except VerifyError Unit :=
  if tx.data ≠ tt.Data then
    Except.error (VerifyError.dataMismatch tx.data tt.Data)
  else if tx.gas ≠ tt.GasLimit then
    Except.error (VerifyError.gasLimitMismatch tx.gas tt.GasLimit)
  else if tx.gasPrice ≠ tt.GasPrice then
    Except.error (VerifyError.gasPriceMismatch tx.gasPrice tt.GasPrice)
  else if tx.nonce ≠ tt.Nonce then
    Except.error (VerifyError.nonceMismatch tx.nonce tt.Nonce)
  else if tx.r ≠ tt.R then
    Except.error (VerifyError.rMismatch tx.r tt.R)
  else if tx.s ≠ tt.S then
    Except.error (VerifyError.sMismatch tx.s tt.S)
  else if tx.v ≠ tt.V then
    Except.error (VerifyError.vMismatch tx.v tt.V)
  else
    match tx.To with
    | none =>
        if tt.To ≠ zeroAddress then
          Except.error (VerifyError.toMismatchContractCreation tt.To)
        else if tx.value ≠ tt.Value then
          Except.error (VerifyError.valueMismatch tx.value tt.Value)
        else Except.ok ()
    | some a =>
        if a ≠ tt.To then
          Except.error (VerifyError.toMismatch a tt.To)
        else if tx.value ≠ tt.Value then
          Except.error (VerifyError.valueMismatch tx.value tt.Value)
        else Except.ok ()

/-- The byte string a Go nil-able slice field denotes: a nil slice reads as
the empty byte string (so `BytesToAddress(nil)` is the zero address). -/
def senderBytes : Option ByteStr → ByteStr
  | none => []
  | some b => b

/-- Source `TransactionTest.Run`. Mirrors the source control flow exactly:
decode; on decode failure succeed iff the fixture has no expected
transaction; derive the sender with the signer selected for the fixture's
block height; compare it with `BytesToAddress` of the (possibly nil)
`Sender` field; then call `verify` on the `Transaction` pointer — a nil
pointer dereferences nil inside `verify` (`tt.Data`), which is a panic —
and apply the three-way policy on `(Sender == nil, err == nil)`. -/
def TransactionTest.Run (tt : TransactionTest) (ext : Extern) (config : ChainConfig) :
    RunResult :=
  match ext.decodeTx tt.json.RLP with
  | Except.error e =>
      match tt.json.Transaction with
      | none => RunResult.ok
      | some _ => RunResult.err (RunError.decodeFailed e)
  | Except.ok tx =>
      let signer := MakeSigner config tt.json.BlockNumber
      match ext.senderOf signer tx with
      | Except.error e => RunResult.err (RunError.senderDerivation e)
      | Except.ok sender =>
          if sender ≠ bytesToAddress (senderBytes tt.json.Sender) then
            RunResult.err (RunError.senderMismatch sender (senderBytes tt.json.Sender))
          else
            match tt.json.Transaction with
            | none => RunResult.panics
            | some t =>
                match t.verify signer tx with
                | Except.error e =>
                    if tt.json.Sender.isSome then
                      RunResult.err (RunError.fieldValidation e)
                    else RunResult.ok
                | Except.ok _ =>
                    if tt.json.Sender.isNone then
                      RunResult.err RunError.unexpectedValidationSuccess
                    else RunResult.ok

/-- Evaluating `bytesToAddress` on the empty byte string (the reading of a
nil `Sender` slice) gives the all-zero address. -/
theorem bytesToAddress_nil : bytesToAddress [] = zeroAddress := by
  decide

/-! Concrete sample values used by witnesses and counterexamples. -/

/-- A sample decoded transaction (contract creation: no recipient). -/
def sampleTx : Transaction :=
  { data := [], gas := 21000, gasPrice := 1, nonce := 0,
    r := 1, s := 1, v := 27, To := none, value := 0 }

/-- The expected-transaction fixture object matching `sampleTx`. -/
def sampleTT : ttTransaction :=
  { Data := [], GasLimit := 21000, GasPrice := 1, Nonce := 0,
    Value := 0, R := 1, S := 1, V := 27, To := zeroAddress }

/-- An expected-transaction fixture object with a wrong gas limit. -/
def badGasTT : ttTransaction :=
  { sampleTT with GasLimit := 1 }

/-- A non-zero 20-byte address. -/
def addrA : Address := 1 :: List.replicate 19 0

/-- Collaborators whose decoder always succeeds with `sampleTx` and whose
sender derivation always yields the zero address. -/
def externZeroSender : Extern :=
  { decodeTx := fun _ => Except.ok sampleTx,
    senderOf := fun _ _ => Except.ok zeroAddress }

/-- Collaborators whose decoder always succeeds with `sampleTx` and whose
sender derivation always yields `addrA`. -/
def externAddrA : Extern :=
  { decodeTx := fun _ => Except.ok sampleTx,
    senderOf := fun _ _ => Except.ok addrA }

/-- Collaborators whose decoder always fails. -/
def externDecodeFail : Extern :=
  { decodeTx := fun _ => Except.error "rlp: expected input list",
    senderOf := fun _ _ => Except.ok zeroAddress }

/-- Collaborators whose sender derivation always fails. -/
def externSenderFail : Extern :=
  { decodeTx := fun _ => Except.ok sampleTx,
    senderOf := fun _ _ => Except.error "invalid signature" }

/-- A chain configuration with no replay-protection fork. -/
def config0 : ChainConfig := { replayProtectionBlock := none, chainId := 1 }

/-- C2: when the rlp bytes fail to decode, `Run` succeeds if the fixture
declares no expected transaction, and returns the decode error if it does
declare one. -/
theorem run_decode_failure_policy (ext : Extern) (config : ChainConfig)
    (tt : TransactionTest) (e : String)
    (hdec : ext.decodeTx tt.json.RLP = Except.error e) :
    (tt.json.Transaction = none → tt.Run ext config = RunResult.ok) ∧
    (∀ t, tt.json.Transaction = some t →
      tt.Run ext config = RunResult.err (RunError.decodeFailed e)) := by
  refine ⟨fun h => ?_, fun t h => ?_⟩ <;>
    simp [TransactionTest.Run, hdec, h]

/-- Witness for `run_decode_failure_policy` at concrete fixtures. -/
theorem run_decode_failure_policy_witness :
    (TransactionTest.mk ⟨0, [0xc0], none, none⟩).Run externDecodeFail config0
        = RunResult.ok ∧
    (TransactionTest.mk ⟨0, [0xc0], none, some sampleTT⟩).Run externDecodeFail config0
        = RunResult.err (RunError.decodeFailed "rlp: expected input list") :=
  ⟨(run_decode_failure_policy externDecodeFail config0
      ⟨⟨0, [0xc0], none, none⟩⟩ "rlp: expected input list" rfl).1 rfl,
   (run_decode_failure_policy externDecodeFail config0
      ⟨⟨0, [0xc0], none, some sampleTT⟩⟩ "rlp: expected input list" rfl).2 sampleTT rfl⟩

/-- C4: once decode succeeds, sender derivation runs with the signer
selected from the chain config and the fixture's block height, before any
field validation: a derivation failure is returned as-is and a mismatch
with a declared expected sender yields the sender-mismatch error carrying
the derived (got) and declared (want) addresses — in both cases for every
value of the fixture's expected-transaction object, which the conclusion
does not constrain, so field validation cannot have been consulted. -/
theorem run_sender_derivation_first (ext : Extern) (config : ChainConfig)
    (tt : TransactionTest) (tx : Transaction)
    (hdec : ext.decodeTx tt.json.RLP = Except.ok tx) :
    (∀ e, ext.senderOf (MakeSigner config tt.json.BlockNumber) tx = Except.error e →
      tt.Run ext config = RunResult.err (RunError.senderDerivation e)) ∧
    (∀ a w, tt.json.Sender = some w →
      ext.senderOf (MakeSigner config tt.json.BlockNumber) tx = Except.ok a →
      a ≠ bytesToAddress w →
      tt.Run ext config = RunResult.err (RunError.senderMismatch a w)) := by
  refine ⟨fun e hs => ?_, fun a w hw hs hne => ?_⟩
  · simp [TransactionTest.Run, hdec, hs]
  · simp [TransactionTest.Run, hdec, hs, hw, senderBytes, hne]

/-- Witness for `run_sender_derivation_first` at concrete fixtures. -/
theorem run_sender_derivation_first_witness :
    (TransactionTest.mk ⟨0, [], some zeroAddress, some sampleTT⟩).Run
        externSenderFail config0
      = RunResult.err (RunError.senderDerivation "invalid signature") ∧
    (TransactionTest.mk ⟨0, [], some zeroAddress, some sampleTT⟩).Run
        externAddrA config0
      = RunResult.err (RunError.senderMismatch addrA zeroAddress) :=
  ⟨(run_sender_derivation_first externSenderFail config0
      ⟨⟨0, [], some zeroAddress, some sampleTT⟩⟩ sampleTx rfl).1 "invalid signature" rfl,
   (run_sender_derivation_first externAddrA config0
      ⟨⟨0, [], some zeroAddress, some sampleTT⟩⟩ sampleTx rfl).2 addrA zeroAddress rfl rfl
      (by decide)⟩

/-- C7: with an absent `Sender` field, `Run` compares the derived sender
against `bytesToAddress` of the empty byte string, the all-zero address: a
non-zero derived sender yields a sender-mismatch error (whose want bytes
are empty), and field validation is reached exactly when the derived
sender is the zero address, in which case the outcome is decided by
`verify` under the absent-sender policy. -/
theorem run_absent_sender_zero_address (ext : Extern) (config : ChainConfig)
    (tt : TransactionTest) (tx : Transaction) (a : Address)
    (hdec : ext.decodeTx tt.json.RLP = Except.ok tx)
    (hsf : tt.json.Sender = none)
    (hs : ext.senderOf (MakeSigner config tt.json.BlockNumber) tx = Except.ok a) :
    (a ≠ zeroAddress →
      tt.Run ext config = RunResult.err (RunError.senderMismatch a [])) ∧
    (a = zeroAddress → ∀ t, tt.json.Transaction = some t →
      tt.Run ext config =
        match t.verify (MakeSigner config tt.json.BlockNumber) tx with
        | Except.error _ => RunResult.ok
        | Except.ok _ => RunResult.err RunError.unexpectedValidationSuccess) := by
  refine ⟨fun hne => ?_, fun hz t ht => ?_⟩
  · simp [TransactionTest.Run, hdec, hs, hsf, senderBytes, bytesToAddress_nil, hne]
  · subst hz
    cases hv : t.verify (MakeSigner config tt.json.BlockNumber) tx <;>
      simp [TransactionTest.Run, hdec, hs, hsf, senderBytes, bytesToAddress_nil, ht, hv]

/-- Witness for `run_absent_sender_zero_address` at concrete fixtures. -/
theorem run_absent_sender_zero_address_witness :
    (TransactionTest.mk ⟨0, [], none, some sampleTT⟩).Run externAddrA config0
      = RunResult.err (RunError.senderMismatch addrA []) ∧
    (TransactionTest.mk ⟨0, [], none, some badGasTT⟩).Run externZeroSender config0
      = RunResult.ok :=
  ⟨(run_absent_sender_zero_address externAddrA config0
      ⟨⟨0, [], none, some sampleTT⟩⟩ sampleTx addrA rfl rfl rfl).1 (by decide),
   by
    have h := (run_absent_sender_zero_address externZeroSender config0
      ⟨⟨0, [], none, some badGasTT⟩⟩ sampleTx zeroAddress rfl rfl rfl).2 rfl badGasTT rfl
    simpa using h⟩

/-- C8: when decode succeeds and the derived sender matches the address
read from the fixture's `Sender` field, but the fixture declares no
expected-transaction object, `Run` dereferences the nil transaction
pointer inside `verify` and panics instead of returning. -/
theorem run_nil_expected_transaction_panics (ext : Extern) (config : ChainConfig)
    (tt : TransactionTest) (tx : Transaction) (a : Address)
    (hdec : ext.decodeTx tt.json.RLP = Except.ok tx)
    (hs : ext.senderOf (MakeSigner config tt.json.BlockNumber) tx = Except.ok a)
    (hmatch : a = bytesToAddress (senderBytes tt.json.Sender))
    (htx : tt.json.Transaction = none) :
    tt.Run ext config = RunResult.panics := by
  simp [TransactionTest.Run, hdec, hs, hmatch, htx]

/-- Witness for `run_nil_expected_transaction_panics`: a fixture declaring
the zero sender but no transaction object, with matching derived sender. -/
theorem run_nil_expected_transaction_panics_witness :
    (TransactionTest.mk ⟨0, [], some zeroAddress, none⟩).Run externZeroSender config0
      = RunResult.panics :=
  run_nil_expected_transaction_panics externZeroSender config0
    ⟨⟨0, [], some zeroAddress, none⟩⟩ sampleTx zeroAddress rfl rfl (by decide) rfl

/-- C3: when decode succeeds, the fixture declares a sender whose address
equals the derived sender, and the fixture declares an expected
transaction, `Run` returns success exactly when `verify` succeeds and
otherwise returns the field-validation error. -/
theorem run_matching_sender_policy (ext : Extern) (config : ChainConfig)
    (tt : TransactionTest) (tx : Transaction) (a : Address) (w : ByteStr)
    (t : ttTransaction)
    (hdec : ext.decodeTx tt.json.RLP = Except.ok tx)
    (hw : tt.json.Sender = some w)
    (hs : ext.senderOf (MakeSigner config tt.json.BlockNumber) tx = Except.ok a)
    (hmatch : a = bytesToAddress w)
    (ht : tt.json.Transaction = some t) :
    (t.verify (MakeSigner config tt.json.BlockNumber) tx = Except.ok () →
      tt.Run ext config = RunResult.ok) ∧
    (∀ e, t.verify (MakeSigner config tt.json.BlockNumber) tx = Except.error e →
      tt.Run ext config = RunResult.err (RunError.fieldValidation e)) := by
  refine ⟨fun hv => ?_, fun e hv => ?_⟩ <;>
    simp [TransactionTest.Run, hdec, hs, hw, senderBytes, hmatch, ht, hv]

/-- Witness for `run_matching_sender_policy`: a fully matching fixture
succeeds; the same fixture with a wrong gas limit surfaces the mismatch. -/
theorem run_matching_sender_policy_witness :
    (TransactionTest.mk ⟨0, [], some zeroAddress, some sampleTT⟩).Run
        externZeroSender config0 = RunResult.ok ∧
    (TransactionTest.mk ⟨0, [], some zeroAddress, some badGasTT⟩).Run
        externZeroSender config0
      = RunResult.err (RunError.fieldValidation (VerifyError.gasLimitMismatch 21000 1)) :=
  ⟨(run_matching_sender_policy externZeroSender config0
      ⟨⟨0, [], some zeroAddress, some sampleTT⟩⟩ sampleTx zeroAddress zeroAddress
      sampleTT rfl rfl rfl (by decide) rfl).1 rfl,
   (run_matching_sender_policy externZeroSender config0
      ⟨⟨0, [], some zeroAddress, some badGasTT⟩⟩ sampleTx zeroAddress zeroAddress
      badGasTT rfl rfl rfl (by decide) rfl).2
      (VerifyError.gasLimitMismatch 21000 1) rfl⟩

/-- C1 as stated is false on the code: with an absent `Sender` field the
derived sender is first compared against the zero address, so a fixture
whose field validation fails (the claim then demands success) instead gets
a sender-mismatch error whenever the derived sender is non-zero. Concrete
input: decode yields `sampleTx`, derivation yields the non-zero `addrA`,
the fixture has no `Sender` and its expected transaction has a wrong gas
limit. -/
theorem run_absent_sender_claim_counterexample :
    externAddrA.decodeTx [] = Except.ok sampleTx ∧
    (TransactionTest.mk ⟨0, [], none, some badGasTT⟩).json.Sender = none ∧
    badGasTT.verify (MakeSigner config0 0) sampleTx
      = Except.error (VerifyError.gasLimitMismatch 21000 1) ∧
    (TransactionTest.mk ⟨0, [], none, some badGasTT⟩).Run externAddrA config0
      = RunResult.err (RunError.senderMismatch addrA []) ∧
    (TransactionTest.mk ⟨0, [], none, some badGasTT⟩).Run externAddrA config0
      ≠ RunResult.ok :=
  ⟨rfl, rfl, rfl, rfl, by decide⟩

/-- C1 (amended): for fixtures whose rlp decodes, whose `Sender` field is
absent, whose sender derivation succeeds with the zero address (the value
an absent sender compares as), and which declare an expected transaction,
`Run` returns success exactly when field validation fails, and the
unexpected-validation-success error when field validation succeeds. -/
theorem run_absent_sender_policy_amended (ext : Extern) (config : ChainConfig)
    (tt : TransactionTest) (tx : Transaction) (t : ttTransaction)
    (hdec : ext.decodeTx tt.json.RLP = Except.ok tx)
    (hsf : tt.json.Sender = none)
    (hs : ext.senderOf (MakeSigner config tt.json.BlockNumber) tx
      = Except.ok zeroAddress)
    (ht : tt.json.Transaction = some t) :
    (∀ e, t.verify (MakeSigner config tt.json.BlockNumber) tx = Except.error e →
      tt.Run ext config = RunResult.ok) ∧
    (t.verify (MakeSigner config tt.json.BlockNumber) tx = Except.ok () →
      tt.Run ext config = RunResult.err RunError.unexpectedValidationSuccess) := by
  refine ⟨fun e hv => ?_, fun hv => ?_⟩ <;>
    simp [TransactionTest.Run, hdec, hs, hsf, senderBytes, bytesToAddress_nil, ht, hv]

/-- Witness for `run_absent_sender_policy_amended`: with the zero derived
sender, a failing validation yields success and a passing validation
yields the unexpected-success error. -/
theorem run_absent_sender_policy_amended_witness :
    (TransactionTest.mk ⟨0, [], none, some badGasTT⟩).Run externZeroSender config0
      = RunResult.ok ∧
    (TransactionTest.mk ⟨0, [], none, some sampleTT⟩).Run externZeroSender config0
      = RunResult.err RunError.unexpectedValidationSuccess :=
  ⟨(run_absent_sender_policy_amended externZeroSender config0
      ⟨⟨0, [], none, some badGasTT⟩⟩ sampleTx badGasTT rfl rfl rfl rfl).1
      (VerifyError.gasLimitMismatch 21000 1) rfl,
   (run_absent_sender_policy_amended externZeroSender config0
      ⟨⟨0, [], none, some sampleTT⟩⟩ sampleTx sampleTT rfl rfl rfl rfl).2 rfl⟩

/-- C10: a verification run is a pure function of the fixture contents and
the chain configuration (for fixed collaborators): equal contents give
equal results, and the embedding manipulates immutable values only. -/
theorem run_deterministic (ext : Extern) (c1 c2 : ChainConfig)
    (tt1 tt2 : TransactionTest)
    (hfix : tt1.json = tt2.json) (hcfg : c1 = c2) :
    tt1.Run ext c1 = tt2.Run ext c2 := by
  cases tt1; cases tt2; cases hfix; cases hcfg; rfl

/-- Witness for `run_deterministic` at a concrete fixture and config. -/
theorem run_deterministic_witness :
    (TransactionTest.mk ⟨0, [], some zeroAddress, some sampleTT⟩).Run
        externZeroSender config0
      = (TransactionTest.mk ⟨0, [], some zeroAddress, some sampleTT⟩).Run
        externZeroSender config0 :=
  run_deterministic externZeroSender config0 config0
    ⟨⟨0, [], some zeroAddress, some sampleTT⟩⟩
    ⟨⟨0, [], some zeroAddress, some sampleTT⟩⟩ rfl rfl

/-- C5: the recipient check of `verify`. Given that the checks preceding
it pass: with no decoded recipient (contract creation) validation passes
the recipient check exactly when the fixture's `To` is the all-zero
20-byte value, and its failure is the dedicated no-recipient error — a
byte-for-byte `toMismatch` error is never produced in that case; with a
decoded recipient, the two 20-byte addresses are compared for equality. -/
theorem verify_recipient_check (t : ttTransaction) (signer : Signer)
    (tx : Transaction)
    (hdata : tx.data = t.Data) (hgas : tx.gas = t.GasLimit)
    (hgp : tx.gasPrice = t.GasPrice) (hnonce : tx.nonce = t.Nonce)
    (hr : tx.r = t.R) (hs : tx.s = t.S) (hv : tx.v = t.V) :
    (tx.To = none → t.To ≠ zeroAddress →
      t.verify signer tx = Except.error (VerifyError.toMismatchContractCreation t.To)) ∧
    (tx.To = none → t.To = zeroAddress → tx.value = t.Value →
      t.verify signer tx = Except.ok ()) ∧
    (tx.To = none → ∀ g w,
      t.verify signer tx ≠ Except.error (VerifyError.toMismatch g w)) ∧
    (∀ a, tx.To = some a → a ≠ t.To →
      t.verify signer tx = Except.error (VerifyError.toMismatch a t.To)) ∧
    (∀ a, tx.To = some a → a = t.To → tx.value = t.Value →
      t.verify signer tx = Except.ok ()) := by
  refine ⟨fun hTo hne => ?_, fun hTo hz hval => ?_, fun hTo g w => ?_,
    fun a hTo hne => ?_, fun a hTo heq hval => ?_⟩ <;>
    simp only [ttTransaction.verify, hdata, hgas, hgp, hnonce, hr, hs, hv, hTo,
      ne_eq, not_true_eq_false, if_false, ite_not]
  · simp [hne]
  · simp [hz, hval]
  · split <;> (try split) <;> simp
  · simp [hne]
  · simp [heq, hval]

/-- Witness for `verify_recipient_check`: `sampleTx` is a contract
creation; against the zero-`To` fixture the check passes, against a
non-zero `To` it fails with the dedicated no-recipient error. -/
theorem verify_recipient_check_witness :
    sampleTT.verify Signer.base sampleTx = Except.ok () ∧
    ({ sampleTT with To := addrA } : ttTransaction).verify Signer.base sampleTx
      = Except.error (VerifyError.toMismatchContractCreation addrA) :=
  ⟨(verify_recipient_check sampleTT Signer.base sampleTx
      rfl rfl rfl rfl rfl rfl rfl).2.1 rfl rfl rfl,
   (verify_recipient_check { sampleTT with To := addrA } Signer.base sampleTx
      rfl rfl rfl rfl rfl rfl rfl).1 rfl (by decide)⟩

/-- C6: `verify` compares `data` byte-for-byte and the numeric fields by
value equality (the embedding carries the decoded numbers as integers, so
equality is independent of any byte-width of their encodings), and any
single discrepancy — all checks before it passing — fails with the error
naming that field and carrying the got and want values; with every
comparison passing, validation succeeds. -/
theorem verify_field_comparisons (t : ttTransaction) (signer : Signer)
    (tx : Transaction) :
    (tx.data ≠ t.Data →
      t.verify signer tx = Except.error (VerifyError.dataMismatch tx.data t.Data)) ∧
    (tx.data = t.Data → tx.gas ≠ t.GasLimit →
      t.verify signer tx
        = Except.error (VerifyError.gasLimitMismatch tx.gas t.GasLimit)) ∧
    (tx.data = t.Data → tx.gas = t.GasLimit → tx.gasPrice ≠ t.GasPrice →
      t.verify signer tx
        = Except.error (VerifyError.gasPriceMismatch tx.gasPrice t.GasPrice)) ∧
    (tx.data = t.Data → tx.gas = t.GasLimit → tx.gasPrice = t.GasPrice →
      tx.nonce ≠ t.Nonce →
      t.verify signer tx = Except.error (VerifyError.nonceMismatch tx.nonce t.Nonce)) ∧
    (tx.data = t.Data → tx.gas = t.GasLimit → tx.gasPrice = t.GasPrice →
      tx.nonce = t.Nonce → tx.r ≠ t.R →
      t.verify signer tx = Except.error (VerifyError.rMismatch tx.r t.R)) ∧
    (tx.data = t.Data → tx.gas = t.GasLimit → tx.gasPrice = t.GasPrice →
      tx.nonce = t.Nonce → tx.r = t.R → tx.s ≠ t.S →
      t.verify signer tx = Except.error (VerifyError.sMismatch tx.s t.S)) ∧
    (tx.data = t.Data → tx.gas = t.GasLimit → tx.gasPrice = t.GasPrice →
      tx.nonce = t.Nonce → tx.r = t.R → tx.s = t.S → tx.v ≠ t.V →
      t.verify signer tx = Except.error (VerifyError.vMismatch tx.v t.V)) ∧
    (tx.data = t.Data → tx.gas = t.GasLimit → tx.gasPrice = t.GasPrice →
      tx.nonce = t.Nonce → tx.r = t.R → tx.s = t.S → tx.v = t.V →
      (match tx.To with | none => t.To = zeroAddress | some a => a = t.To) →
      tx.value ≠ t.Value →
      t.verify signer tx
        = Except.error (VerifyError.valueMismatch tx.value t.Value)) ∧
    (tx.data = t.Data → tx.gas = t.GasLimit → tx.gasPrice = t.GasPrice →
      tx.nonce = t.Nonce → tx.r = t.R → tx.s = t.S → tx.v = t.V →
      (match tx.To with | none => t.To = zeroAddress | some a => a = t.To) →
      tx.value = t.Value →
      t.verify signer tx = Except.ok ()) := by
  refine ⟨fun h1 => ?_, fun h1 h2 => ?_, fun h1 h2 h3 => ?_, fun h1 h2 h3 h4 => ?_,
    fun h1 h2 h3 h4 h5 => ?_, fun h1 h2 h3 h4 h5 h6 => ?_,
    fun h1 h2 h3 h4 h5 h6 h7 => ?_, fun h1 h2 h3 h4 h5 h6 h7 hTo h9 => ?_,
    fun h1 h2 h3 h4 h5 h6 h7 hTo h9 => ?_⟩
  · simp [ttTransaction.verify, h1]
  · simp [ttTransaction.verify, h1, h2]
  · simp [ttTransaction.verify, h1, h2, h3]
  · simp [ttTransaction.verify, h1, h2, h3, h4]
  · simp [ttTransaction.verify, h1, h2, h3, h4, h5]
  · simp [ttTransaction.verify, h1, h2, h3, h4, h5, h6]
  · simp [ttTransaction.verify, h1, h2, h3, h4, h5, h6, h7]
  · cases hc : tx.To with
    | none => rw [hc] at hTo; simp [ttTransaction.verify, h1, h2, h3, h4, h5, h6, h7,
        hc, hTo, h9]
    | some a => rw [hc] at hTo; simp [ttTransaction.verify, h1, h2, h3, h4, h5, h6, h7,
        hc, hTo, h9]
  · cases hc : tx.To with
    | none => rw [hc] at hTo; simp [ttTransaction.verify, h1, h2, h3, h4, h5, h6, h7,
        hc, hTo, h9]
    | some a => rw [hc] at hTo; simp [ttTransaction.verify, h1, h2, h3, h4, h5, h6, h7,
        hc, hTo, h9]

/-- Witness for `verify_field_comparisons`: a wrong gas price is reported
as a gas-price mismatch with got and want values, and the all-equal case
succeeds. -/
theorem verify_field_comparisons_witness :
    ({ sampleTT with GasPrice := 7 } : ttTransaction).verify Signer.base sampleTx
      = Except.error (VerifyError.gasPriceMismatch 1 7) ∧
    sampleTT.verify Signer.base sampleTx = Except.ok () :=
  ⟨(verify_field_comparisons { sampleTT with GasPrice := 7 } Signer.base
      sampleTx).2.2.1 rfl rfl (by decide),
   (verify_field_comparisons sampleTT Signer.base
      sampleTx).2.2.2.2.2.2.2.2 rfl rfl rfl rfl rfl rfl rfl rfl rfl⟩
